import Mathlib

/-!
# Storefront page script (static/js/main.js)

A shallow embedding of the page script: the document, the timers and the
promise chains are explicit state, every handler is a function on that state.
-/

namespace Shop

/-! ## Values and errors of the host language -/

/-- The exceptions the script can meet. -/
inductive JsError where
  | typeError (msg : String)
  | syntaxError (msg : String)
  | referenceError (name : String)
  | domException (name : String)
  deriving DecidableEq, Repr

/-- How a promise settles: `ok` is fulfilled, `error` is rejected. The same type
describes how a call completes: `ok` is a normal return, `error` a throw. -/
inductive Settled (α : Type) where
  | ok (a : α)
  | error (e : JsError)
  deriving DecidableEq, Repr

/-! ## The document -/

/-- An element of the document body. `id` is the identity of the DOM object (a
well-formed page has them pairwise distinct), `productId` the value of its
`data-product-id` attribute when that is the decimal form of a product id, and
`classList` the tokens of its `class` attribute. -/
structure Node where
  id : Nat
  productId : Option Nat
  innerHTML : String
  disabled : Bool
  classList : List String
  deriving DecidableEq, Repr

/-- The element with id `cart-count`: its text and its `style.display`. -/
structure Badge where
  textContent : String
  display : String
  deriving DecidableEq, Repr

/-- The function a timer runs when it expires; each constructor is one of the
arrow functions handed to `setTimeout`, with the variables it captures. -/
inductive Callback where
  /-- Lines 87-93, capturing `btn`. -/
  | revertButton (btn : Nat)
  /-- Lines 161-168, capturing `notification`. -/
  | toastHide (node : Nat)
  /-- Lines 164-166, capturing `notification`. -/
  | toastRemove (node : Nat)
  deriving DecidableEq, Repr

/-- A pending timer. -/
structure Timer where
  id : Nat
  delay : Nat
  cb : Callback
  deriving DecidableEq, Repr

/-- A request issued through `fetch`. -/
inductive Request where
  /-- `POST /add_to_cart` with body `product_id`, `quantity`. -/
  | addToCart (productId quantity : Nat)
  /-- `GET /api/cart/count`. -/
  | cartCount
  deriving DecidableEq, Repr

/-- The functions of the browser the script relies on and does not define.
`toastsIn m` is the number of elements matching `.notification-toast` among the
elements the HTML parser builds when `m` is assigned to an `innerHTML`;
`withoutToasts m` is the markup of that content once those elements are
removed from it; `numberText n` is `String(x)` for the number `x` that
`JSON.parse` makes of the integer `n`, a double: it is the decimal form of `n`
as long as `n` is at most 2^53 in absolute value. -/
structure Host where
  toastsIn : String → Nat
  withoutToasts : String → String
  numberText : Int → String
  toastsIn_withoutToasts : ∀ m, toastsIn (withoutToasts m) = 0
  withoutToasts_plain : ∀ m, toastsIn m = 0 → withoutToasts m = m
  numberText_safe : ∀ n : Int, -9007199254740992 ≤ n → n ≤ 9007199254740992 →
    numberText n = toString n

/-- The state of the page. `body` lists the elements under `document.body`; what
is inside an element is its `innerHTML`, read through `host`.
`globalOriginalText` is the string form of the global binding named
`originalText`, when the page has one (a `var` of another script, or an element
with that id); `fetches`, `shown` and `console` record, in order, the requests
issued, the calls of `showNotification` (message, type) and the calls of
`console.error` (label, error). -/
structure Page where
  host : Host
  body : List Node
  nextNode : Nat
  timers : List Timer
  nextTimer : Nat
  globalOriginalText : Option String
  cartBadge : Option Badge
  fetches : List Request
  shown : List (String × String)
  console : List (String × JsError)

/-- The parsed body of the `/add_to_cart` response, with the fields the
interface declares; `none` is an absent field (`undefined`). -/
structure CartData where
  success : Option Bool
  message : Option String
  deriving DecidableEq, Repr

/-- The parsed body of the `/api/cart/count` response: `count` is the integer
the JSON text writes, when the field is there. -/
structure CountData where
  count : Option Int
  deriving DecidableEq, Repr

/-- What the body of a response is, as `response.json()` sees it: not JSON, the
JSON value `null`, or a value whose properties can be read. -/
inductive Body (α : Type) where
  | unparseable
  | null
  | value (d : α)
  deriving DecidableEq, Repr

/-- What becomes of a `fetch`: it rejects, or it resolves with a response. -/
inductive FetchOutcome (α : Type) where
  | networkError
  | response (body : Body α)
  deriving DecidableEq, Repr

/-! ## Promise plumbing -/

/-- `p.then(f)`: `f` runs on the value of a fulfilled `p`; a rejection passes
through. The page is threaded, so what a handler did before throwing stays. -/
def thenP {α β : Type} (p : Page × Settled α) (f : α → Page → Page × Settled β) :
    Page × Settled β :=
  match p.2 with
  | .ok a => f a p.1
  | .error e => (p.1, .error e)

/-- `p.catch(h)`: `h` runs on the reason of a rejected `p`; a fulfilment passes
through. -/
def catchP {α : Type} (p : Page × Settled α) (h : JsError → Page → Page × Settled α) :
    Page × Settled α :=
  match p.2 with
  | .ok a => (p.1, .ok a)
  | .error e => h e p.1

/-- The promise `fetch` returns, once the outcome is known. -/
def fetchSettled {α : Type} (o : FetchOutcome α) (s : Page) : Page × Settled (Body α) :=
  match o with
  | .networkError => (s, .error (.typeError "Failed to fetch"))
  | .response b => (s, .ok b)

/-- `response => response.json()`: `none` is the JSON value `null`. -/
def responseJson {α : Type} (b : Body α) (s : Page) : Page × Settled (Option α) :=
  match b with
  | .unparseable => (s, .error (.syntaxError "Unexpected token"))
  | .null => (s, .ok none)
  | .value d => (s, .ok (some d))

/-! ## DOM primitives -/

/-- `classList.add(c)`. -/
def classAdd (c : String) (cs : List String) : List String :=
  if c ∈ cs then cs else cs ++ [c]

/-- `classList.remove(c)`. -/
def classRemove (c : String) (cs : List String) : List String :=
  cs.filter (fun x => x != c)

/-- Apply `f` to the element with identity `id`. -/
def updateNode (id : Nat) (f : Node → Node) (s : Page) : Page :=
  { s with body := s.body.map (fun n => if n.id = id then f n else n) }

/-- The element with identity `id`, when it is in the document. -/
def getNode (id : Nat) (s : Page) : Option Node :=
  s.body.find? (fun n => n.id == id)

/-- `document.querySelector` on the selector `[data-product-id="..."]`: the
first element in document order that carries the attribute with that value. -/
def querySelectorProduct (productId : Nat) (s : Page) : Option Nat :=
  (s.body.find? (fun n => n.productId == some productId)).map (fun n => n.id)

/-- Whether an element matches the selector `.notification-toast`. -/
def isToast (n : Node) : Bool :=
  n.classList.contains "notification-toast"

/-- The elements of `body` that match `.notification-toast`. -/
def toasts (s : Page) : List Node :=
  s.body.filter isToast

/-- The number of elements matching `.notification-toast` inside the elements of
`body`, as their `innerHTML` holds them. -/
def innerToasts (s : Page) : Nat :=
  (s.body.map (fun n => s.host.toastsIn n.innerHTML)).sum

/-- The length of `document.querySelectorAll('.notification-toast')`: the
elements of `body` that match and the matching elements inside any element. -/
def toastCount (s : Page) : Nat :=
  (toasts s).length + innerToasts s

/-- `node.remove()`. -/
def removeNode (id : Nat) (s : Page) : Page :=
  { s with body := s.body.filter (fun n => n.id != id) }

/-- `setTimeout(cb, delay)`. -/
def setTimeout (cb : Callback) (delay : Nat) (s : Page) : Page :=
  { s with timers := s.timers ++ [⟨s.nextTimer, delay, cb⟩], nextTimer := s.nextTimer + 1 }

/-- `fetch(...)`: the request goes out. -/
def fetch (r : Request) (s : Page) : Page :=
  { s with fetches := s.fetches ++ [r] }

/-- `console.error(label, error)`. -/
def consoleError (label : String) (e : JsError) (s : Page) : Page :=
  { s with console := s.console ++ [(label, e)] }

/-- Reading the identifier `originalText` in a callback of `addToCart`. The
`const originalText` of line 59 is declared inside the block of `if (btn)`, so
it is not in scope in the callbacks, which are created outside that block: the
name resolves against the global object and the read throws a ReferenceError
when no such global exists. -/
def readOriginalText (s : Page) : Settled String :=
  match s.globalOriginalText with
  | some t => .ok t
  | none => .error (.referenceError "originalText")

/-! ## showNotification (lines 136-169) -/

/-- The template literal of lines 153-156, assigned to `notification.innerHTML`. -/
def toastMarkup (message : String) : String :=
  "\n        " ++ message ++
    "\n        <button type=\"button\" class=\"btn-close\" data-bs-dismiss=\"alert\"></button>\n    "

/-- The element `showNotification` creates. -/
def toastNode (id : Nat) (message type : String) : Node :=
  { id := id
    productId := none
    innerHTML := toastMarkup message
    disabled := false
    classList := ["alert", "alert-" ++ (if type = "error" then "danger" else type),
      "alert-dismissible", "fade", "show", "notification-toast"] }

/-- The function `showNotification(message, type)`. Every element matching
`.notification-toast` is removed: the matching elements of `body`, and the
matching elements inside the others, whose markup loses them. The message goes
into the `innerHTML` of the new element, so the elements its markup creates are
in the document too (`toastCount` counts them). -/
def showNotification (message type : String) (s : Page) : Page :=
  -- existingNotifications.forEach(notification => notification.remove())
  let kept := (s.body.filter (fun n => !isToast n)).map
    (fun n => { n with innerHTML := s.host.withoutToasts n.innerHTML })
  let s := { s with body := kept }
  -- document.createElement, className, innerHTML
  let notification := toastNode s.nextNode message type
  -- document.body.appendChild(notification)
  let s := { s with body := s.body ++ [notification], nextNode := s.nextNode + 1,
                    shown := s.shown ++ [(message, type)] }
  setTimeout (.toastHide notification.id) 5000 s

/-! ## updateCartCount (lines 118-133) -/

/-- The synchronous part of `updateCartCount()`: the request is issued. -/
def updateCartCount (s : Page) : Page :=
  fetch .cartCount s

/-- The handler `data => ...` of lines 121-129. `data.count` is read only when
the element exists (`cartBadge && data.count > 0`), and the read throws when
`data` is `null`; an absent count compares as not greater than zero. -/
def updateCartCount_onData (data : Option CountData) (s : Page) : Page × Settled Unit :=
  match s.cartBadge with
  | some badge =>
    match data with
    | none => (s, .error (.typeError "Cannot read properties of null"))
    | some d =>
      match d.count with
      | some n =>
        if n > 0 then
          -- cartBadge.textContent = data.count
          ({ s with cartBadge := some ⟨s.host.numberText n, "inline"⟩ }, .ok ())
        else
          ({ s with cartBadge := some { badge with display := "none" } }, .ok ())
      | none => ({ s with cartBadge := some { badge with display := "none" } }, .ok ())
  | none => (s, .ok ())

/-- The handler `error => ...` of lines 130-132. -/
def updateCartCount_onError (e : JsError) (s : Page) : Page × Settled Unit :=
  (consoleError "Error updating cart count:" e s, .ok ())

/-- The promise chain of `updateCartCount`, run on the outcome of its request. -/
def updateCartCount_settle (o : FetchOutcome CountData) (s : Page) : Page × Settled Unit :=
  catchP (thenP (thenP (fetchSettled o s) responseJson) updateCartCount_onData)
    updateCartCount_onError

/-! ## addToCart (lines 54-115) -/

/-- The variables of `addToCart` its callbacks capture. -/
structure Closure where
  productId : Nat
  quantity : Nat
  btn : Option Nat
  deriving DecidableEq, Repr

/-- The synchronous part of `addToCart(productId, quantity = 1)`; `none` for the
quantity is the omitted argument. -/
def addToCart (productId : Nat) (quantity : Option Nat) (s : Page) : Page × Closure :=
  let quantity := quantity.getD 1
  let btn := querySelectorProduct productId s
  let s :=
    match btn with
    | some b =>
      -- const originalText = btn.innerHTML, local to this block
      let _originalText := (getNode b s).map (fun n => n.innerHTML)
      let s := updateNode b (fun n => { n with innerHTML := "<i class=\"fas fa-spinner fa-spin\"></i> Adding..." }) s
      let s := updateNode b (fun n => { n with disabled := true }) s
      updateNode b (fun n => { n with classList := classAdd "btn-loading" n.classList }) s
    | none => s
  (fetch (.addToCart productId quantity) s, ⟨productId, quantity, btn⟩)

/-- Lines 98-102 and 109-113: `if (btn) { btn.innerHTML = originalText; ... }`. -/
def restoreControl (btn : Option Nat) (s : Page) : Page × Settled Unit :=
  match btn with
  | some b =>
    match readOriginalText s with
    | .error e => (s, .error e)
    | .ok t =>
      let s := updateNode b (fun n => { n with innerHTML := t }) s
      let s := updateNode b (fun n => { n with disabled := false }) s
      (updateNode b (fun n => { n with classList := classRemove "btn-loading" n.classList }) s, .ok ())
  | none => (s, .ok ())

/-- The value of `data.message || 'Error adding product to cart'`. -/
def messageOrDefault (d : CartData) : String :=
  match d.message with
  | some m => if m ≠ "" then m else "Error adding product to cart"
  | none => "Error adding product to cart"

/-- The handler `data => ...` of lines 76-104. -/
def addToCart_onData (c : Closure) (data : Option CartData) (s : Page) : Page × Settled Unit :=
  match data with
  | none => (s, .error (.typeError "Cannot read properties of null"))
  | some d =>
    if d.success = some true then
      let s := showNotification "Product added to cart successfully!" "success" s
      let s := updateCartCount s
      match c.btn with
      | some b =>
        let s := updateNode b (fun n => { n with innerHTML := "<i class=\"fas fa-check\"></i> Added!" }) s
        let s := updateNode b (fun n => { n with classList := classRemove "btn-primary" n.classList }) s
        let s := updateNode b (fun n => { n with classList := classAdd "btn-success" n.classList }) s
        (setTimeout (.revertButton b) 2000 s, .ok ())
      | none => (s, .ok ())
    else
      let s := showNotification (messageOrDefault d) "error" s
      restoreControl c.btn s

/-- The handler `error => ...` of lines 105-114. -/
def addToCart_onError (c : Closure) (e : JsError) (s : Page) : Page × Settled Unit :=
  let s := consoleError "Error:" e s
  let s := showNotification "Error adding product to cart" "error" s
  restoreControl c.btn s

/-- The promise chain of `addToCart`, run on the outcome of its request: the
result is how the last promise of the chain settles. -/
def addToCart_settle (c : Closure) (o : FetchOutcome CartData) (s : Page) : Page × Settled Unit :=
  catchP (thenP (thenP (fetchSettled o s) responseJson) (addToCart_onData c))
    (addToCart_onError c)

/-! ## Timers -/

/-- Run a timer callback. -/
def runCallback (cb : Callback) (s : Page) : Page × Settled Unit :=
  match cb with
  | .revertButton b =>
    match readOriginalText s with
    | .error e => (s, .error e)
    | .ok t =>
      let s := updateNode b (fun n => { n with innerHTML := t }) s
      let s := updateNode b (fun n => { n with classList := classRemove "btn-success" n.classList }) s
      let s := updateNode b (fun n => { n with classList := classAdd "btn-primary" n.classList }) s
      let s := updateNode b (fun n => { n with disabled := false }) s
      (updateNode b (fun n => { n with classList := classRemove "btn-loading" n.classList }) s, .ok ())
  | .toastHide t =>
    -- if (notification.parentNode)
    if (getNode t s).isSome then
      let s := updateNode t (fun n => { n with classList := classRemove "show" n.classList }) s
      (setTimeout (.toastRemove t) 150 s, .ok ())
    else (s, .ok ())
  | .toastRemove t => (removeNode t s, .ok ())

/-- The timer with identity `id` expires: it leaves the queue and its callback
runs. Nothing happens when no such timer is pending. -/
def fireTimer (id : Nat) (s : Page) : Page × Settled Unit :=
  match s.timers.find? (fun t => t.id == id) with
  | some t => runCallback t.cb { s with timers := s.timers.filter (fun t => t.id != id) }
  | none => (s, .ok ())

/-- What can happen to the notification area. `dismiss` is a click on the close
button of a toast: the widget library, which is not part of this script, takes
the element out of the document. -/
inductive Event where
  | notify (message type : String)
  | timer (id : Nat)
  | dismiss (node : Nat)
  deriving DecidableEq, Repr

/-- One event. -/
def step (s : Page) (e : Event) : Page :=
  match e with
  | .notify message type => showNotification message type s
  | .timer id => (fireTimer id s).1
  | .dismiss node => removeNode node s

/-- A sequence of events. -/
def run (s : Page) (es : List Event) : Page :=
  es.foldl step s

/-- The timers with the given identities expire, one after the other. -/
def fireTimers (ids : List Nat) (s : Page) : Page :=
  ids.foldl (fun s id => (fireTimer id s).1) s

/-- The number of calls of `updateCartCount` so far: each issues one request. -/
def cartCountCalls (s : Page) : Nat :=
  s.fetches.count .cartCount

/-! ## Sample page -/

/-- A product button as the templates render it. -/
def sampleButton : Node :=
  { id := 1, productId := some 42, innerHTML := "Add to Cart", disabled := false,
    classList := ["btn", "btn-primary"] }

/-- A message whose markup is an element of class `notification-toast`. -/
def sampleMessage : String :=
  "<div class=\"notification-toast\">x</div>"

/-- A host that agrees with a browser on the strings and the numbers the sample
pages meet: the markup of `sampleMessage`, alone or inside the template of a
toast, holds one element matching `.notification-toast`, and the button labels
and plain messages of the samples hold none; the integer 2^53 + 1 is read as
the double 2^53 and 10^21 is written "1e+21". Elsewhere it is a stand-in (no
matching element, the decimal form of the integer). -/
def sampleHost : Host :=
  { toastsIn := fun m => if m = toastMarkup sampleMessage ∨ m = sampleMessage then 1 else 0
    withoutToasts := fun m =>
      if m = toastMarkup sampleMessage then toastMarkup ""
      else if m = sampleMessage then "" else m
    numberText := fun n =>
      if n = 9007199254740993 then "9007199254740992"
      else if n = 1000000000000000000000 then "1e+21" else toString n
    toastsIn_withoutToasts := by
      intro m
      have h1 : ¬ (toastMarkup "" = toastMarkup sampleMessage ∨ toastMarkup "" = sampleMessage) := by
        decide
      have h2 : ¬ ("" = toastMarkup sampleMessage ∨ "" = sampleMessage) := by decide
      have h3 : ¬ (sampleMessage = toastMarkup sampleMessage) := by decide
      by_cases ha : m = toastMarkup sampleMessage
      · simp only [ha, if_true, if_neg h1]
      · by_cases hb : m = sampleMessage
        · simp only [hb, if_neg h3, if_true, if_neg h2]
        · have hc : ¬ (m = toastMarkup sampleMessage ∨ m = sampleMessage) := by
            intro h
            cases h with
            | inl h => exact ha h
            | inr h => exact hb h
          simp only [if_neg ha, if_neg hb, if_neg hc]
    withoutToasts_plain := by
      intro m h
      by_cases ha : m = toastMarkup sampleMessage
      · simp [ha] at h
      · by_cases hb : m = sampleMessage
        · simp [hb] at h
        · simp only [if_neg ha, if_neg hb]
    numberText_safe := by
      intro n _ h
      have hne : ¬ (n = 9007199254740993) := by omega
      have hne2 : ¬ (n = 1000000000000000000000) := by omega
      simp only [if_neg hne, if_neg hne2] }

/-- A page with one product button, a cart badge and no global `originalText`. -/
def samplePage : Page :=
  { host := sampleHost
    body := [sampleButton], nextNode := 2, timers := [], nextTimer := 1,
    globalOriginalText := none, cartBadge := some ⟨"3", "inline"⟩,
    fetches := [], shown := [], console := [] }


/-- The sample page after an earlier successful `addToCart(42)`, in a document
whose global `originalText` is the markup of `sampleMessage`: the 2000 ms timer
of the button is pending. -/
def samplePageGlobal : Page :=
  { samplePage with
    globalOriginalText := some sampleMessage
    timers := [⟨1, 2000, .revertButton 1⟩]
    nextTimer := 2 }

/-! ## storage (lines 272-298) -/

/-- The browser key-value storage: the stored texts, whether access is refused
(every call throws a SecurityError) and the room there is (`setItem` throws a
QuotaExceededError when the stored characters would exceed it). -/
structure LocalStorage where
  items : List (String × String)
  denied : Bool
  quota : Nat
  deriving DecidableEq, Repr

/-- The characters held by a list of entries. -/
def storedSize (items : List (String × String)) : Nat :=
  (items.map (fun kv => kv.1.length + kv.2.length)).sum

/-- `localStorage.getItem(key)`; `none` is `null`. -/
def LocalStorage.getItem (ls : LocalStorage) (key : String) : Settled (Option String) :=
  if ls.denied then .error (.domException "SecurityError")
  else .ok (ls.items.lookup key)

/-- `localStorage.setItem(key, value)`. -/
def LocalStorage.setItem (ls : LocalStorage) (key value : String) : Settled LocalStorage :=
  if ls.denied then .error (.domException "SecurityError")
  else
    let items := ls.items.filter (fun kv => kv.1 != key) ++ [(key, value)]
    if storedSize items > ls.quota then .error (.domException "QuotaExceededError")
    else .ok { ls with items := items }

/-- `localStorage.removeItem(key)`. -/
def LocalStorage.removeItem (ls : LocalStorage) (key : String) : Settled LocalStorage :=
  if ls.denied then .error (.domException "SecurityError")
  else .ok { ls with items := ls.items.filter (fun kv => kv.1 != key) }

/-- The host functions `JSON.stringify` and `JSON.parse` over the values `V` of
the language, and the value `null`; either function may throw. -/
structure Json (V : Type) where
  null : V
  stringify : V → Settled String
  parse : String → Settled V

/-- What the storage helpers act on: the storage and the console. -/
structure Store where
  localStorage : LocalStorage
  console : List (String × JsError)
  deriving DecidableEq, Repr

/-- Sequencing of calls that may throw. -/
def Settled.bind {α β : Type} (x : Settled α) (f : α → Settled β) : Settled β :=
  match x with
  | .ok a => f a
  | .error e => .error e

/-- The statement `try { body } catch (error) { handler }`. -/
def tryCatch {α : Type} (body : Settled α) (handler : JsError → Settled α) : Settled α :=
  match body with
  | .ok a => .ok a
  | .error e => handler e

/-- The function `storage.set(key, value)`. -/
def storage_set {V : Type} (J : Json V) (key : String) (value : V) (st : Store) : Settled Store :=
  tryCatch
    ((J.stringify value).bind fun text =>
      (st.localStorage.setItem key text).bind fun ls =>
        .ok { st with localStorage := ls })
    (fun error =>
      .ok { st with console := st.console ++ [("Error saving to localStorage:", error)] })

/-- The function `storage.get(key, defaultValue = null)`; `none` for the default
is the omitted argument. -/
def storage_get {V : Type} (J : Json V) (key : String) (defaultValue : Option V) (st : Store) :
    Settled (V × Store) :=
  let defaultValue := defaultValue.getD J.null
  tryCatch
    ((st.localStorage.getItem key).bind fun item =>
      -- item ? JSON.parse(item) : defaultValue
      match item with
      | some text =>
        if text ≠ "" then (J.parse text).bind fun v => .ok (v, st)
        else .ok (defaultValue, st)
      | none => .ok (defaultValue, st))
    (fun error =>
      .ok (defaultValue,
        { st with console := st.console ++ [("Error reading from localStorage:", error)] }))

/-- The function `storage.remove(key)`. -/
def storage_remove (key : String) (st : Store) : Settled Store :=
  tryCatch
    ((st.localStorage.removeItem key).bind fun ls => .ok { st with localStorage := ls })
    (fun error =>
      .ok { st with console := st.console ++ [("Error removing from localStorage:", error)] })

/-- A sample of the host JSON functions, restricted to `null` and the booleans. -/
def boolJson : Json (Option Bool) :=
  { null := none
    stringify := fun v =>
      match v with
      | some true => .ok "true"
      | some false => .ok "false"
      | none => .ok "null"
    parse := fun t =>
      if t = "true" then .ok (some true)
      else if t = "false" then .ok (some false)
      else if t = "null" then .ok none
      else .error (.syntaxError "Unexpected token") }

/-- A storage that holds a text which is not JSON under the key "cart". -/
def sampleStore : Store :=
  { localStorage := { items := [("cart", "oops")], denied := false, quota := 100 }
    console := [] }

/-! ## debounce (lines 300-315) -/

/-- A pending call of `later`, with the `context` and `args` it captures. -/
structure DTimer (C A : Type) where
  id : Nat
  due : Nat
  context : C
  args : A
  deriving DecidableEq, Repr

/-- The state around one function returned by `debounce(func, wait, immediate)`:
the clock and the timer queue of the host, the variable `timeout` (`none` is
`undefined` or `null`; timer ids are positive, so every id is truthy) and the
record of the calls `func.apply(context, args)` made, with their time. -/
structure Debounced (C A : Type) where
  wait : Nat
  immediate : Bool
  now : Nat
  nextTimer : Nat
  pending : List (DTimer C A)
  timeout : Option Nat
  calls : List (Nat × C × A)
  deriving DecidableEq, Repr

/-- The function `debounce(func, wait, immediate)`, called at time `now`. -/
def debounce (C A : Type) (wait : Nat) (immediate : Bool) (now nextTimer : Nat) :
    Debounced C A :=
  { wait := wait, immediate := immediate, now := now, nextTimer := nextTimer,
    pending := [], timeout := none, calls := [] }

/-- `clearTimeout(timeout)`. -/
def clearTimeout {C A : Type} (timeout : Option Nat) (d : Debounced C A) : Debounced C A :=
  match timeout with
  | some id => { d with pending := d.pending.filter (fun t => t.id != id) }
  | none => d

/-- The function `executedFunction`, called with `this = context` and
`arguments = args`. -/
def executedFunction {C A : Type} (context : C) (args : A) (d : Debounced C A) :
    Debounced C A :=
  let callNow := d.immediate && d.timeout.isNone
  let d := clearTimeout d.timeout d
  -- timeout = setTimeout(later, wait)
  let d := { d with pending := d.pending ++ [⟨d.nextTimer, d.now + d.wait, context, args⟩],
                    timeout := some d.nextTimer, nextTimer := d.nextTimer + 1 }
  if callNow then { d with calls := d.calls ++ [(d.now, context, args)] } else d

/-- The function `later` of the call that set timer `t`. -/
def later {C A : Type} (t : DTimer C A) (d : Debounced C A) : Debounced C A :=
  let d := { d with timeout := none }
  if !d.immediate then { d with calls := d.calls ++ [(d.now, t.context, t.args)] } else d

/-- The clock moves to `t`: the pending timers due by then expire in the order
of their due times, each at its due time. -/
def advanceTo {C A : Type} (t : Nat) (d : Debounced C A) : Debounced C A :=
  let due := (d.pending.filter (fun x => x.due ≤ t)).insertionSort (fun x y => x.due ≤ y.due)
  let d := { d with pending := d.pending.filter (fun x => t < x.due) }
  let d := due.foldl (fun d x => later x { d with now := x.due }) d
  { d with now := t }

/-- Time passes: `dt` milliseconds. -/
def elapse {C A : Type} (dt : Nat) (d : Debounced C A) : Debounced C A :=
  advanceTo (d.now + dt) d

/-- A sequence of calls of the debounced function: each entry is the time since
the previous event, the `this` and the arguments of the call. -/
def runCalls {C A : Type} (d : Debounced C A) : List (Nat × C × A) → Debounced C A
  | [] => d
  | (gap, context, args) :: rest => runCalls (executedFunction context args (elapse gap d)) rest

/-- The state right after a call of the non-immediate debounced function at time
`now`: no call of `func` so far, and one pending timer, the one `timeout` names. -/
def armed {C A : Type} (wait now id nextTimer : Nat) (context : C) (args : A) :
    Debounced C A :=
  { wait := wait, immediate := false, now := now, nextTimer := nextTimer,
    pending := [⟨id, now + wait, context, args⟩], timeout := some id, calls := [] }

/-! ## initLazyLoading (lines 253-269) -/

/-- An `img` element: its `src`, its `data-src` and its classes. -/
structure Img where
  src : Option String
  dataSrc : Option String
  classList : List String
  deriving DecidableEq, Repr

/-- An IntersectionObserverEntry; the target is the position of the image among
the images of the document. -/
structure Entry where
  target : Nat
  isIntersecting : Bool
  deriving DecidableEq, Repr

/-- The images of the document, the targets `imageObserver` observes and the
record of the assignments to `src` made by the callback (target, value). -/
structure LazyPage where
  imgs : List Img
  observed : List Nat
  srcWrites : List (Nat × String)
  deriving DecidableEq, Repr

/-- The function `initLazyLoading()`: every `img[data-src]` is observed. -/
def initLazyLoading (imgs : List Img) : LazyPage :=
  { imgs := imgs
    observed := (List.range imgs.length).filter
      (fun i => match imgs[i]? with
        | some img => img.dataSrc.isSome
        | none => false)
    srcWrites := [] }

/-- The body of `entries.forEach(entry => ...)` for one entry. -/
def handleEntry (s : LazyPage) (entry : Entry) : LazyPage :=
  if entry.isIntersecting then
    match s.imgs[entry.target]? with
    | some img =>
      -- img.dataset.src is undefined without the attribute
      let value := img.dataSrc.getD "undefined"
      { imgs := s.imgs.set entry.target
          { img with src := some value, classList := classRemove "lazy" img.classList }
        observed := s.observed.filter (fun i => i != entry.target)
        srcWrites := s.srcWrites ++ [(entry.target, value)] }
    | none => s
  else s

/-- The callback of `imageObserver`, on the entries of one notification. -/
def observerCallback (entries : List Entry) (s : LazyPage) : LazyPage :=
  entries.foldl handleEntry s

/-- A sequence of notifications. -/
def notifyAll (s : LazyPage) (batches : List (List Entry)) : LazyPage :=
  batches.foldl (fun s entries => observerCallback entries s) s

/-- The observer builds a notification from the targets it observes: every entry
of a notification is for a target that is under observation when the
notification is handed to the callback. -/
def observedBatches (s : LazyPage) : List (List Entry) → Bool
  | [] => true
  | b :: bs =>
    b.all (fun e => s.observed.contains e.target) && observedBatches (observerCallback b s) bs

/-- A document with three images, the last two lazy. -/
def sampleImgs : List Img :=
  [⟨some "/logo.png", none, []⟩, ⟨none, some "/p/42.jpg", ["lazy"]⟩,
    ⟨none, some "/p/43.jpg", ["lazy"]⟩]

/-- The values assigned to the `src` of image `i` so far. -/
def srcWritesOf (i : Nat) (s : LazyPage) : List String :=
  (s.srcWrites.filter (fun w => w.1 == i)).map (fun w => w.2)

/-- Whether some entry reports image `i` as intersecting. -/
def intersects (i : Nat) (es : List Entry) : Bool :=
  es.any (fun e => e.target == i && e.isIntersecting)

/-- The number of entries that report image `i` as intersecting. -/
def hits (i : Nat) (es : List Entry) : Nat :=
  es.countP (fun e => e.target == i && e.isIntersecting)

/-! ## Lemmas on the primitives -/

theorem contains_classRemove (c t : String) (cs : List String) (h : c ≠ t) :
    (classRemove c cs).contains t = cs.contains t := by
  rw [Bool.eq_iff_iff]
  simp only [classRemove, List.contains_eq_any_beq, List.any_eq_true, List.mem_filter,
    bne_iff_ne, ne_eq, beq_iff_eq]
  constructor
  · rintro ⟨x, ⟨hx, _⟩, hxe⟩
    exact ⟨x, hx, hxe⟩
  · rintro ⟨x, hx, hxe⟩
    exact ⟨x, ⟨hx, fun h2 => h (h2.symm.trans hxe.symm)⟩, hxe⟩

theorem contains_classAdd (c t : String) (cs : List String) (h : c ≠ t) :
    (classAdd c cs).contains t = cs.contains t := by
  unfold classAdd
  split
  · rfl
  · have hne : (t == c) = false := by simpa using fun h2 => h h2.symm
    simp [List.elem_eq_mem, hne, Ne.symm h]

theorem isToast_classRemove (c : String) (n : Node) (h : c ≠ "notification-toast") :
    isToast { n with classList := classRemove c n.classList } = isToast n := by
  simp only [isToast]
  exact contains_classRemove c _ n.classList h

theorem isToast_classAdd (c : String) (n : Node) (h : c ≠ "notification-toast") :
    isToast { n with classList := classAdd c n.classList } = isToast n := by
  simp only [isToast]
  exact contains_classAdd c _ n.classList h

theorem toasts_updateNode (id : Nat) (f : Node → Node) (s : Page)
    (hf : ∀ n, isToast (f n) = isToast n) :
    (toasts (updateNode id f s)).length = (toasts s).length := by
  simp only [toasts, updateNode]
  induction s.body with
  | nil => rfl
  | cons a l ih =>
    have ha : isToast (if a.id = id then f a else a) = isToast a := by
      split
      · exact hf a
      · rfl
    simp only [List.map_cons, List.filter_cons, ha]
    split
    · simp [ih]
    · simp [ih]

theorem toasts_removeNode_le (id : Nat) (s : Page) :
    (toasts (removeNode id s)).length ≤ (toasts s).length := by
  simp only [toasts, removeNode, List.filter_filter]
  induction s.body with
  | nil => simp
  | cons a l ih =>
    simp only [List.filter_cons]
    split <;> split <;> simp_all
    omega

theorem toasts_showNotification (message type : String) (s : Page) :
    toasts (showNotification message type s) = [toastNode s.nextNode message type] := by
  have h1 : isToast (toastNode s.nextNode message type) = true := by
    simp [isToast, toastNode]
  have h2 : List.filter isToast ((List.filter (fun n => !isToast n) s.body).map
      (fun n => { n with innerHTML := s.host.withoutToasts n.innerHTML })) = [] := by
    rw [List.filter_eq_nil_iff]
    intro a ha
    simp only [List.mem_map, List.mem_filter] at ha
    obtain ⟨x, ⟨_, hx⟩, rfl⟩ := ha
    simpa [isToast] using hx
  simp [toasts, showNotification, setTimeout, List.filter_append, h1, h2]

theorem innerToasts_showNotification (message type : String) (s : Page) :
    innerToasts (showNotification message type s) = s.host.toastsIn (toastMarkup message) := by
  have h : ∀ l : List Node, ((l.map (fun n =>
      ({ n with innerHTML := s.host.withoutToasts n.innerHTML } : Node))).map
      (fun n => s.host.toastsIn n.innerHTML)).sum = 0 := by
    intro l
    induction l with
    | nil => rfl
    | cons a l ih =>
      simp only [List.map_cons, List.sum_cons, ih, s.host.toastsIn_withoutToasts]
  simp only [innerToasts, showNotification, setTimeout, List.map_append, List.sum_append, h]
  simp [toastNode]

theorem toastCount_showNotification (message type : String) (s : Page) :
    toastCount (showNotification message type s)
      = 1 + s.host.toastsIn (toastMarkup message) := by
  simp only [toastCount, toasts_showNotification, innerToasts_showNotification,
    List.length_singleton]

theorem innerToasts_removeNode_le (id : Nat) (s : Page) :
    innerToasts (removeNode id s) ≤ innerToasts s := by
  simp only [innerToasts, removeNode]
  induction s.body with
  | nil => exact le_refl _
  | cons a l ih =>
    simp only [List.filter_cons]
    split
    · simp only [List.map_cons, List.sum_cons]
      omega
    · simp only [List.map_cons, List.sum_cons]
      omega

theorem toastCount_removeNode_le (id : Nat) (s : Page) :
    toastCount (removeNode id s) ≤ toastCount s := by
  have h1 := toasts_removeNode_le id s
  have h2 := innerToasts_removeNode_le id s
  simp only [toastCount]
  omega

theorem innerToasts_updateNode_le (id : Nat) (f : Node → Node) (s : Page)
    (hf : ∀ n, s.host.toastsIn (f n).innerHTML ≤ s.host.toastsIn n.innerHTML) :
    innerToasts (updateNode id f s) ≤ innerToasts s := by
  simp only [innerToasts, updateNode]
  induction s.body with
  | nil => exact le_refl _
  | cons a l ih =>
    have ha : s.host.toastsIn (if a.id = id then f a else a).innerHTML
        ≤ s.host.toastsIn a.innerHTML := by
      split
      · exact hf a
      · exact le_refl _
    simp only [List.map_cons, List.sum_cons]
    omega

theorem toastCount_updateNode_le (id : Nat) (f : Node → Node) (s : Page)
    (hc : ∀ n, isToast (f n) = isToast n)
    (hf : ∀ n, s.host.toastsIn (f n).innerHTML ≤ s.host.toastsIn n.innerHTML) :
    toastCount (updateNode id f s) ≤ toastCount s := by
  have h1 := toasts_updateNode id f s hc
  have h2 := innerToasts_updateNode_le id f s hf
  simp only [toastCount]
  omega

theorem fireTimer_shown (id : Nat) (s : Page) : (fireTimer id s).1.shown = s.shown := by
  unfold fireTimer
  split
  · rename_i t _
    cases t.cb <;> simp only [runCallback, readOriginalText]
    · split <;> rfl
    · split <;> rfl
    · rfl
  · rfl

theorem fireTimer_fetches (id : Nat) (s : Page) : (fireTimer id s).1.fetches = s.fetches := by
  unfold fireTimer
  split
  · rename_i t _
    cases t.cb <;> simp only [runCallback, readOriginalText]
    · split <;> rfl
    · split <;> rfl
    · rfl
  · rfl

theorem fireTimers_shown (ids : List Nat) (s : Page) : (fireTimers ids s).shown = s.shown := by
  induction ids generalizing s with
  | nil => rfl
  | cons i l ih =>
    show (fireTimers l (fireTimer i s).1).shown = s.shown
    rw [ih, fireTimer_shown]

theorem fireTimers_fetches (ids : List Nat) (s : Page) :
    (fireTimers ids s).fetches = s.fetches := by
  induction ids generalizing s with
  | nil => rfl
  | cons i l ih =>
    show (fireTimers l (fireTimer i s).1).fetches = s.fetches
    rw [ih, fireTimer_fetches]

theorem fireTimer_host (id : Nat) (s : Page) : (fireTimer id s).1.host = s.host := by
  unfold fireTimer
  split
  · rename_i t _
    cases t.cb <;> simp only [runCallback, readOriginalText]
    · split <;> rfl
    · split <;> rfl
    · rfl
  · rfl

theorem fireTimer_global (id : Nat) (s : Page) :
    (fireTimer id s).1.globalOriginalText = s.globalOriginalText := by
  unfold fireTimer
  split
  · rename_i t _
    cases t.cb <;> simp only [runCallback, readOriginalText]
    · split <;> rfl
    · split <;> rfl
    · rfl
  · rfl

theorem toastCount_runCallback_le (cb : Callback) (s : Page)
    (hg : ∀ t, s.globalOriginalText = some t → s.host.toastsIn t = 0) :
    toastCount (runCallback cb s).1 ≤ toastCount s := by
  cases cb with
  | revertButton b =>
    simp only [runCallback, readOriginalText]
    cases hgt : s.globalOriginalText with
    | none => exact le_refl _
    | some t =>
      have ht : s.host.toastsIn t = 0 := hg t hgt
      refine le_trans (toastCount_updateNode_le b _ _
        (fun n => isToast_classRemove "btn-loading" n (by decide)) (fun _ => le_refl _)) ?_
      refine le_trans (toastCount_updateNode_le b (fun n => { n with disabled := false }) _
        (fun _ => rfl) (fun _ => le_refl _)) ?_
      refine le_trans (toastCount_updateNode_le b _ _
        (fun n => isToast_classAdd "btn-primary" n (by decide)) (fun _ => le_refl _)) ?_
      refine le_trans (toastCount_updateNode_le b _ _
        (fun n => isToast_classRemove "btn-success" n (by decide)) (fun _ => le_refl _)) ?_
      exact toastCount_updateNode_le b (fun n => { n with innerHTML := t }) s
        (fun _ => rfl) (fun n => by
          show s.host.toastsIn t ≤ _
          rw [ht]
          exact Nat.zero_le _)
  | toastHide b =>
    simp only [runCallback]
    split
    · exact toastCount_updateNode_le b _ s
        (fun n => isToast_classRemove "show" n (by decide)) (fun _ => le_refl _)
    · exact le_refl _
  | toastRemove b => exact toastCount_removeNode_le b s

theorem toastCount_fireTimer_le (id : Nat) (s : Page)
    (hg : ∀ t, s.globalOriginalText = some t → s.host.toastsIn t = 0) :
    toastCount (fireTimer id s).1 ≤ toastCount s := by
  unfold fireTimer
  split
  · rename_i t _
    exact toastCount_runCallback_le t.cb
      { s with timers := s.timers.filter (fun t => t.id != id) } hg
  · exact le_refl _

theorem toastCount_run_le (H : Host) (g : Option String) (es : List Event) (s : Page)
    (hH : s.host = H) (hG : s.globalOriginalText = g)
    (hes : ∀ m t, Event.notify m t ∈ es → H.toastsIn (toastMarkup m) = 0)
    (hg : ∀ t, g = some t → H.toastsIn t = 0)
    (h1 : toastCount s ≤ 1) :
    toastCount (run s es) ≤ 1 := by
  induction es generalizing s with
  | nil => exact h1
  | cons e l ih =>
    have hl : ∀ m t, Event.notify m t ∈ l → H.toastsIn (toastMarkup m) = 0 :=
      fun m t hmem => hes m t (List.mem_cons_of_mem _ hmem)
    have hgs : ∀ t, s.globalOriginalText = some t → s.host.toastsIn t = 0 := by
      intro t ht
      rw [hH]
      exact hg t (hG ▸ ht)
    show toastCount (run (step s e) l) ≤ 1
    cases e with
    | notify m t =>
      refine ih (showNotification m t s) hH hG hl ?_
      rw [toastCount_showNotification, hH, hes m t (List.mem_cons_self _ _)]
    | timer id =>
      exact ih (fireTimer id s).1 ((fireTimer_host id s).trans hH)
        ((fireTimer_global id s).trans hG) hl (le_trans (toastCount_fireTimer_le id s hgs) h1)
    | dismiss node =>
      exact ih (removeNode node s) hH hG hl (le_trans (toastCount_removeNode_le node s) h1)

/-! ## The claims -/

/-- C1 (the code departs from it): on the sample page, whose button for product
42 reads "Add to Cart", a failure response and a transport error both leave the
button with the loading label, disabled and marked `btn-loading`: the handlers
throw at the read of `originalText` before they restore anything. -/
theorem addToCart_failure_leaves_control_loading :
    getNode 1 (addToCart_settle (addToCart 42 none samplePage).2
        (.response (.value ⟨some false, some "Out of stock"⟩)) (addToCart 42 none samplePage).1).1
      = some ⟨1, some 42, "<i class=\"fas fa-spinner fa-spin\"></i> Adding...", true,
          ["btn", "btn-primary", "btn-loading"]⟩ ∧
    getNode 1 (addToCart_settle (addToCart 42 none samplePage).2
        .networkError (addToCart 42 none samplePage).1).1
      = some ⟨1, some 42, "<i class=\"fas fa-spinner fa-spin\"></i> Adding...", true,
          ["btn", "btn-primary", "btn-loading"]⟩ ∧
    getNode 1 samplePage = some ⟨1, some 42, "Add to Cart", false, ["btn", "btn-primary"]⟩ := by
  decide

/-- C2: when the response has `success` true, the promise chain of `addToCart`
fulfils, `showNotification` is called exactly once, with the text
"Product added to cart successfully!" and the type "success" (so no error
notification is shown), and `updateCartCount` is called exactly once; the
timers that expire afterwards show nothing and request nothing. -/
theorem addToCart_success_one_notification (productId : Nat) (quantity : Option Nat)
    (s : Page) (d : CartData) (h : d.success = some true) (ids : List Nat) :
    (addToCart_settle (addToCart productId quantity s).2 (.response (.value d))
        (addToCart productId quantity s).1).2 = .ok () ∧
    (addToCart_settle (addToCart productId quantity s).2 (.response (.value d))
        (addToCart productId quantity s).1).1.shown
      = s.shown ++ [("Product added to cart successfully!", "success")] ∧
    cartCountCalls (addToCart_settle (addToCart productId quantity s).2 (.response (.value d))
        (addToCart productId quantity s).1).1 = cartCountCalls s + 1 ∧
    (fireTimers ids (addToCart_settle (addToCart productId quantity s).2 (.response (.value d))
        (addToCart productId quantity s).1).1).shown
      = s.shown ++ [("Product added to cart successfully!", "success")] ∧
    cartCountCalls (fireTimers ids (addToCart_settle (addToCart productId quantity s).2
        (.response (.value d)) (addToCart productId quantity s).1).1) = cartCountCalls s + 1 := by
  have key : (addToCart_settle (addToCart productId quantity s).2 (.response (.value d))
        (addToCart productId quantity s).1).2 = .ok () ∧
      (addToCart_settle (addToCart productId quantity s).2 (.response (.value d))
        (addToCart productId quantity s).1).1.shown
        = s.shown ++ [("Product added to cart successfully!", "success")] ∧
      (addToCart_settle (addToCart productId quantity s).2 (.response (.value d))
        (addToCart productId quantity s).1).1.fetches
        = s.fetches ++ [.addToCart productId (quantity.getD 1), .cartCount] := by
    simp only [addToCart, addToCart_settle, catchP, thenP, fetchSettled, responseJson,
      addToCart_onData, h, if_true]
    cases querySelectorProduct productId s <;>
      simp [showNotification, updateCartCount, fetch, setTimeout, updateNode]
  obtain ⟨k1, k2, k3⟩ := key
  refine ⟨k1, k2, ?_, ?_, ?_⟩
  · simp [cartCountCalls, k3, List.count_append, List.count_cons]
  · rw [fireTimers_shown, k2]
  · simp [cartCountCalls, fireTimers_fetches, k3, List.count_append, List.count_cons]

/-- C2, at `addToCart(42, 2)` with the response `\x7bsuccess: true\x7d` on the sample page. -/
theorem addToCart_success_one_notification_witness :
    (⟨some true, none⟩ : CartData).success = some true ∧
    (addToCart_settle (addToCart 42 (some 2) samplePage).2 (.response (.value ⟨some true, none⟩))
        (addToCart 42 (some 2) samplePage).1).1.shown
      = [("Product added to cart successfully!", "success")] ∧
    cartCountCalls (addToCart_settle (addToCart 42 (some 2) samplePage).2
        (.response (.value ⟨some true, none⟩)) (addToCart 42 (some 2) samplePage).1).1 = 1 :=
  ⟨rfl,
    (addToCart_success_one_notification 42 (some 2) samplePage ⟨some true, none⟩ rfl [1, 2]).2.1,
    (addToCart_success_one_notification 42 (some 2) samplePage ⟨some true, none⟩ rfl [1, 2]).2.2.1⟩

/-- C3 (the code departs from it): on the sample page, `addToCart(42)` with the
response `success: false, message: "Out of stock"` calls `showNotification`
twice, and the toast left in the document carries the generic text, not
"Out of stock": the handler of the response throws at the read of
`originalText` after showing the message of the server, and the `catch`
handler then shows its own. -/
theorem addToCart_failure_shows_generic_error :
    (addToCart_settle (addToCart 42 none samplePage).2
        (.response (.value ⟨some false, some "Out of stock"⟩))
        (addToCart 42 none samplePage).1).1.shown
      = [("Out of stock", "error"), ("Error adding product to cart", "error")] ∧
    toasts (addToCart_settle (addToCart 42 none samplePage).2
        (.response (.value ⟨some false, some "Out of stock"⟩))
        (addToCart 42 none samplePage).1).1
      = [toastNode 3 "Error adding product to cart" "error"] := by
  decide

/-- C4, as stated, fails. A message whose markup is an element of class
`notification-toast` leaves two elements matching `.notification-toast` in the
document after `showNotification` returns; and where the page has a global
`originalText` with such markup and a pending timer of `addToCart`, the expiry
of that timer after a plain notification leaves two as well. -/
theorem showNotification_markup_two_toasts :
    toastCount (showNotification sampleMessage "info" samplePage) = 2 ∧
    toastCount (run (showNotification "Saved" "info" samplePageGlobal) [.timer 1]) = 2 := by
  decide

/-- C4, amended: when the content built from the message holds no element matching
`.notification-toast`, then after `showNotification` returns exactly one
element of the document matches, the new one, whatever the document held
before; and at most one matches after any sequence of `showNotification`
calls with such messages, timer expiries and dismissals that follows, in a
page whose global `originalText`, if there is one, holds no such element. -/
theorem showNotification_single_toast (message type : String) (s : Page) (es : List Event)
    (hm : s.host.toastsIn (toastMarkup message) = 0)
    (hes : ∀ m t, Event.notify m t ∈ es → s.host.toastsIn (toastMarkup m) = 0)
    (hg : ∀ t, s.globalOriginalText = some t → s.host.toastsIn t = 0) :
    toasts (showNotification message type s) = [toastNode s.nextNode message type] ∧
    toastCount (showNotification message type s) = 1 ∧
    toastCount (run (showNotification message type s) es) ≤ 1 := by
  have h1 : toastCount (showNotification message type s) = 1 := by
    rw [toastCount_showNotification, hm]
  exact ⟨toasts_showNotification message type s, h1,
    toastCount_run_le s.host s.globalOriginalText es (showNotification message type s)
      rfl rfl hes hg (le_of_eq h1)⟩

/-- C4, amended, on the sample page: a plain notification, a second one, the expiry
of the first timer and the dismissal of the second toast. -/
theorem showNotification_single_toast_witness :
    samplePage.host.toastsIn (toastMarkup "Saved") = 0 ∧
    toastCount (showNotification "Saved" "info" samplePage) = 1 ∧
    toastCount (run (showNotification "Saved" "info" samplePage)
      [.notify "Done" "success", .timer 1, .dismiss 3]) ≤ 1 :=
  ⟨by decide,
    (showNotification_single_toast "Saved" "info" samplePage
      [.notify "Done" "success", .timer 1, .dismiss 3] (by decide)
      (by
        intro m t h
        simp only [List.mem_cons, Event.notify.injEq, List.mem_singleton, reduceCtorEq,
          or_false, List.not_mem_nil] at h
        obtain ⟨rfl, _⟩ := h
        decide)
      (fun _ h => Option.noConfusion h)).2.1,
    (showNotification_single_toast "Saved" "info" samplePage
      [.notify "Done" "success", .timer 1, .dismiss 3] (by decide)
      (by
        intro m t h
        simp only [List.mem_cons, Event.notify.injEq, List.mem_singleton, reduceCtorEq,
          or_false, List.not_mem_nil] at h
        obtain ⟨rfl, _⟩ := h
        decide)
      (fun _ h => Option.noConfusion h)).2.2⟩

/-- C5 (the code departs from it): on the sample page, `addToCart(42, 2)` puts
the button in the loading state while the request is pending and in the
"Added!" state on the success response, but the expiry of the 2000 ms timer
(timer 2) reverts nothing: the callback throws at the read of `originalText`
and the button stays disabled, labelled "Added!", with `btn-loading` and
`btn-success` and without `btn-primary`. -/
theorem addToCart_success_timer_reverts_nothing :
    getNode 1 (addToCart 42 (some 2) samplePage).1
      = some ⟨1, some 42, "<i class=\"fas fa-spinner fa-spin\"></i> Adding...", true,
          ["btn", "btn-primary", "btn-loading"]⟩ ∧
    getNode 1 (addToCart_settle (addToCart 42 (some 2) samplePage).2
        (.response (.value ⟨some true, none⟩)) (addToCart 42 (some 2) samplePage).1).1
      = some ⟨1, some 42, "<i class=\"fas fa-check\"></i> Added!", true,
          ["btn", "btn-loading", "btn-success"]⟩ ∧
    (addToCart_settle (addToCart 42 (some 2) samplePage).2
        (.response (.value ⟨some true, none⟩)) (addToCart 42 (some 2) samplePage).1).1.timers
      = [⟨1, 5000, .toastHide 2⟩, ⟨2, 2000, .revertButton 1⟩] ∧
    (fireTimer 2 (addToCart_settle (addToCart 42 (some 2) samplePage).2
        (.response (.value ⟨some true, none⟩)) (addToCart 42 (some 2) samplePage).1).1).2
      = .error (.referenceError "originalText") ∧
    getNode 1 (fireTimer 2 (addToCart_settle (addToCart 42 (some 2) samplePage).2
        (.response (.value ⟨some true, none⟩)) (addToCart 42 (some 2) samplePage).1).1).1
      = some ⟨1, some 42, "<i class=\"fas fa-check\"></i> Added!", true,
          ["btn", "btn-loading", "btn-success"]⟩ := by
  decide

/-- C6 (the code departs from it): on the sample page, `addToCart(42)` with a
failure response or a transport error ends with the last promise of the chain
rejected: the `catch` handler itself throws the ReferenceError of
`originalText`, which nothing handles. -/
theorem addToCart_failure_chain_rejects :
    (addToCart_settle (addToCart 42 none samplePage).2
        (.response (.value ⟨some false, some "Out of stock"⟩))
        (addToCart 42 none samplePage).1).2 = .error (.referenceError "originalText") ∧
    (addToCart_settle (addToCart 42 none samplePage).2 .networkError
        (addToCart 42 none samplePage).1).2 = .error (.referenceError "originalText") ∧
    (addToCart_settle (addToCart 42 none samplePage).2 (.response .unparseable)
        (addToCart 42 none samplePage).1).2 = .error (.referenceError "originalText") := by
  decide

/-- C7, as stated, fails. The count is a double: for the response
`count: 9007199254740993` on the sample page the element shows the text
"9007199254740992", which is not the decimal form of the count. -/
theorem updateCartCount_large_count_text :
    (updateCartCount_settle (.response (.value ⟨some 9007199254740993⟩)) samplePage).1.cartBadge
      = some ⟨"9007199254740992", "inline"⟩ ∧
    (updateCartCount_settle (.response (.value ⟨some 9007199254740993⟩)) samplePage).1.cartBadge
      ≠ some ⟨toString (9007199254740993 : Int), "inline"⟩ := by
  decide

/-- C7, amended: with the cart-count element in the page and a response whose count
is an integer `n ≥ 0`, the promise chain of `updateCartCount` leaves the element
hidden (`display` "none") when `n = 0` and shown (`display` "inline") when
`n > 0`, with the text the host gives the number, which is the decimal form of
`n` as long as `n ≤ 2^53`; a request that fails in transport, or whose body is
not JSON, leaves the element as it was. -/
theorem updateCartCount_reflects_count (s : Page) (badge : Badge) (n : Int)
    (hb : s.cartBadge = some badge) (hn : 0 ≤ n) :
    (n = 0 → (updateCartCount_settle (.response (.value ⟨some n⟩)) s).1.cartBadge
      = some ⟨badge.textContent, "none"⟩) ∧
    (0 < n → (updateCartCount_settle (.response (.value ⟨some n⟩)) s).1.cartBadge
      = some ⟨s.host.numberText n, "inline"⟩) ∧
    (0 < n → n ≤ 9007199254740992 →
      (updateCartCount_settle (.response (.value ⟨some n⟩)) s).1.cartBadge
        = some ⟨toString n, "inline"⟩) ∧
    (updateCartCount_settle .networkError s).1.cartBadge = some badge ∧
    (updateCartCount_settle (.response .unparseable) s).1.cartBadge = some badge := by
  have hnum : 0 < n → (updateCartCount_settle (.response (.value ⟨some n⟩)) s).1.cartBadge
      = some ⟨s.host.numberText n, "inline"⟩ := by
    intro hpos
    simp [updateCartCount_settle, catchP, thenP, fetchSettled, responseJson,
      updateCartCount_onData, hb, hpos]
  refine ⟨?_, hnum, ?_, ?_, ?_⟩
  · intro h0
    subst h0
    simp [updateCartCount_settle, catchP, thenP, fetchSettled, responseJson,
      updateCartCount_onData, hb]
  · intro hpos hle
    rw [hnum hpos, s.host.numberText_safe n (by omega) hle]
  · simp [updateCartCount_settle, catchP, thenP, fetchSettled, updateCartCount_onError,
      consoleError, hb]
  · simp [updateCartCount_settle, catchP, thenP, fetchSettled, responseJson,
      updateCartCount_onError, consoleError, hb]

/-- C7, amended, on the sample page with the response `count: 5`. -/
theorem updateCartCount_reflects_count_witness :
    samplePage.cartBadge = some ⟨"3", "inline"⟩ ∧ (0 : Int) ≤ 5 ∧
    (updateCartCount_settle (.response (.value ⟨some 5⟩)) samplePage).1.cartBadge
      = some ⟨toString (5 : Int), "inline"⟩ ∧
    (updateCartCount_settle .networkError samplePage).1.cartBadge = some ⟨"3", "inline"⟩ :=
  ⟨rfl, by decide,
    (updateCartCount_reflects_count samplePage ⟨"3", "inline"⟩ 5 rfl (by decide)).2.2.1
      (by decide) (by decide),
    (updateCartCount_reflects_count samplePage ⟨"3", "inline"⟩ 5 rfl (by decide)).2.2.2.1⟩

/-- C8: `storage.get(key, d)` returns normally in every state of the storage, and
returns `d` when the read of the storage throws, when the stored text is not
parseable and when nothing is stored under the key; `storage.set` and
`storage.remove` return normally too, whatever the storage and `JSON.stringify`
do. -/
theorem storage_never_throws {V : Type} (J : Json V) (key : String) (d value : V) (st : Store) :
    (∃ v st1, storage_get J key (some d) st = .ok (v, st1)) ∧
    (∀ e, st.localStorage.getItem key = .error e →
      ∃ st1, storage_get J key (some d) st = .ok (d, st1)) ∧
    (∀ text e, st.localStorage.getItem key = .ok (some text) → J.parse text = .error e →
      ∃ st1, storage_get J key (some d) st = .ok (d, st1)) ∧
    (st.localStorage.getItem key = .ok none →
      ∃ st1, storage_get J key (some d) st = .ok (d, st1)) ∧
    (∃ st1, storage_set J key value st = .ok st1) ∧
    (∃ st1, storage_remove key st = .ok st1) := by
  refine ⟨?_, ?_, ?_, ?_, ?_, ?_⟩
  · unfold storage_get tryCatch Settled.bind
    cases st.localStorage.getItem key with
    | error e => exact ⟨_, _, rfl⟩
    | ok item =>
      cases item with
      | none => exact ⟨_, _, rfl⟩
      | some text =>
        by_cases ht : text = ""
        · simp [ht]
        · cases hp : J.parse text <;> simp [ht, hp]
  · intro e he
    unfold storage_get tryCatch Settled.bind
    rw [he]
    exact ⟨_, rfl⟩
  · intro text e hg hp
    unfold storage_get tryCatch Settled.bind
    rw [hg]
    by_cases ht : text = ""
    · simp [ht]
    · simp [ht, hp]
  · intro hg
    unfold storage_get tryCatch Settled.bind
    rw [hg]
    exact ⟨_, rfl⟩
  · unfold storage_set tryCatch Settled.bind
    cases J.stringify value with
    | error e => exact ⟨_, rfl⟩
    | ok text =>
      cases hs : st.localStorage.setItem key text <;> simp [hs]
  · unfold storage_remove tryCatch Settled.bind
    cases st.localStorage.removeItem key with
    | error e => exact ⟨_, rfl⟩
    | ok ls => exact ⟨_, rfl⟩

/-- C8, on a storage whose text under "cart" is not JSON: `get` gives the default. -/
theorem storage_never_throws_witness :
    sampleStore.localStorage.getItem "cart" = .ok (some "oops") ∧
    boolJson.parse "oops" = .error (.syntaxError "Unexpected token") ∧
    ∃ st1, storage_get boolJson "cart" (some (some true)) sampleStore = .ok (some true, st1) :=
  ⟨by decide, by decide,
    (storage_never_throws boolJson "cart" (some true) none sampleStore).2.2.1 "oops"
      (.syntaxError "Unexpected token") (by decide) (by decide)⟩

theorem elapse_armed {C A : Type} (wait now id nextTimer : Nat) (c : C) (a : A) (dt : Nat) :
    elapse dt (armed wait now id nextTimer c a) =
      if dt < wait then
        { armed wait now id nextTimer c a with now := now + dt }
      else
        { wait := wait, immediate := false, now := now + dt, nextTimer := nextTimer,
          pending := [], timeout := none, calls := [(now + wait, c, a)] } := by
  by_cases h : dt < wait
  · have h1 : ¬ (now + wait ≤ now + dt) := by omega
    have h2 : now + dt < now + wait := by omega
    simp [elapse, advanceTo, armed, h, h1, h2]
  · have h1 : now + wait ≤ now + dt := by omega
    have h2 : ¬ (now + dt < now + wait) := by omega
    simp [elapse, advanceTo, armed, h, h1, h2, later]

theorem executedFunction_armed {C A : Type} (wait now id nextTimer : Nat) (c c1 : C) (a a1 : A)
    (gap : Nat) (h : gap < wait) :
    executedFunction c1 a1 (elapse gap (armed wait now id nextTimer c a)) =
      armed wait (now + gap) nextTimer (nextTimer + 1) c1 a1 := by
  rw [elapse_armed, if_pos h]
  simp [executedFunction, clearTimeout, armed]

theorem runCalls_armed {C A : Type} (wait : Nat) (rest : List (Nat × C × A))
    (hgap : ∀ x ∈ rest, x.1 < wait) (now id nextTimer : Nat) (first : Nat × C × A) :
    ∃ now1 id1 nextTimer1,
      runCalls (armed wait now id nextTimer first.2.1 first.2.2) rest =
        armed wait now1 id1 nextTimer1
          ((first :: rest).getLast (List.cons_ne_nil _ _)).2.1
          ((first :: rest).getLast (List.cons_ne_nil _ _)).2.2 := by
  induction rest generalizing now id nextTimer first with
  | nil => exact ⟨now, id, nextTimer, rfl⟩
  | cons x l ih =>
    obtain ⟨gap, c1, a1⟩ := x
    have hg : gap < wait := hgap (gap, c1, a1) (List.mem_cons_self _ _)
    have hl : ∀ y ∈ l, y.1 < wait := fun y hy => hgap y (List.mem_cons_of_mem _ hy)
    obtain ⟨n1, i1, t1, h1⟩ := ih hl (now + gap) nextTimer (nextTimer + 1) (gap, c1, a1)
    refine ⟨n1, i1, t1, ?_⟩
    show runCalls (executedFunction c1 a1 (elapse gap (armed wait now id nextTimer _ _))) l = _
    rw [executedFunction_armed _ _ _ _ _ _ _ _ _ hg, List.getLast_cons (List.cons_ne_nil _ _)]
    exact h1

/-- C9: for the non-immediate `debounce(func, wait)` and a non-empty sequence of
calls of the debounced function in which each call comes less than `wait` ms
after the previous one, `func` has not been called while less than `wait` ms
have passed since the last call, and from then on it has been called exactly
once, at `wait` ms after the last call, with the `this` and the arguments of
the last call. -/
theorem debounce_trailing_call {C A : Type} (wait now nextTimer : Nat) (first : Nat × C × A)
    (rest : List (Nat × C × A)) (hgap : ∀ x ∈ rest, x.1 < wait) (dt : Nat) :
    (elapse dt (runCalls (debounce C A wait false now nextTimer) (first :: rest))).calls =
      if dt < wait then []
      else [((runCalls (debounce C A wait false now nextTimer) (first :: rest)).now + wait,
        ((first :: rest).getLast (List.cons_ne_nil _ _)).2.1,
        ((first :: rest).getLast (List.cons_ne_nil _ _)).2.2)] := by
  obtain ⟨gap, c, a⟩ := first
  have h0 : executedFunction c a (elapse gap (debounce C A wait false now nextTimer)) =
      armed wait (now + gap) nextTimer (nextTimer + 1) c a := by
    simp [executedFunction, elapse, advanceTo, debounce, clearTimeout, armed]
  obtain ⟨n1, i1, t1, h1⟩ := runCalls_armed wait rest hgap (now + gap) nextTimer (nextTimer + 1)
    (gap, c, a)
  have h2 : runCalls (debounce C A wait false now nextTimer) ((gap, c, a) :: rest) =
      armed wait n1 i1 t1 (((gap, c, a) :: rest).getLast (List.cons_ne_nil _ _)).2.1
        (((gap, c, a) :: rest).getLast (List.cons_ne_nil _ _)).2.2 := by
    show runCalls (executedFunction c a (elapse gap (debounce C A wait false now nextTimer))) rest
      = _
    rw [h0]
    exact h1
  rw [h2, elapse_armed]
  by_cases h : dt < wait
  · simp [h, armed]
  · simp [h, armed]

/-- C9, on three calls 100 ms apart with `wait` 300: at 299 ms after the last call
nothing has run, at 300 ms `func` has run once with the last arguments. -/
theorem debounce_trailing_call_witness :
    (∀ x ∈ [(100, 0, "ab"), (100, 0, "abc")], x.1 < 300) ∧
    (elapse 299 (runCalls (debounce Nat String 300 false 0 1)
      [(0, 0, "a"), (100, 0, "ab"), (100, 0, "abc")])).calls = [] ∧
    (elapse 300 (runCalls (debounce Nat String 300 false 0 1)
      [(0, 0, "a"), (100, 0, "ab"), (100, 0, "abc")])).calls = [(500, 0, "abc")] :=
  ⟨by decide,
    debounce_trailing_call 300 0 1 (0, 0, "a") [(100, 0, "ab"), (100, 0, "abc")] (by decide) 299,
    debounce_trailing_call 300 0 1 (0, 0, "a") [(100, 0, "ab"), (100, 0, "abc")] (by decide) 300⟩

theorem handleEntry_other (i : Nat) (s : LazyPage) (e : Entry)
    (h : (e.target == i && e.isIntersecting) = false) :
    (handleEntry s e).imgs[i]? = s.imgs[i]? ∧
    (i ∈ (handleEntry s e).observed ↔ i ∈ s.observed) ∧
    srcWritesOf i (handleEntry s e) = srcWritesOf i s := by
  unfold handleEntry
  by_cases hint : e.isIntersecting = true
  · have hne : e.target ≠ i := by
      intro heq
      simp [heq, hint] at h
    rw [if_pos hint]
    cases hg : s.imgs[e.target]? with
    | none => exact ⟨rfl, Iff.rfl, rfl⟩
    | some img =>
      refine ⟨?_, ?_, ?_⟩
      · simp [List.getElem?_set, hne]
      · simp [List.mem_filter, Ne.symm hne]
      · simp [srcWritesOf, List.filter_append, hne]
  · rw [if_neg hint]
    exact ⟨rfl, Iff.rfl, rfl⟩

theorem handleEntry_hit (i : Nat) (s : LazyPage) (e : Entry) (img : Img) (u : String)
    (h : (e.target == i && e.isIntersecting) = true)
    (hi : s.imgs[i]? = some img) (hu : img.dataSrc = some u) :
    (∃ img1, (handleEntry s e).imgs[i]? = some img1 ∧ img1.src = some u ∧
      img1.dataSrc = some u) ∧
    i ∉ (handleEntry s e).observed ∧
    srcWritesOf i (handleEntry s e) = srcWritesOf i s ++ [u] := by
  have ht : e.target = i := by
    simp at h
    exact h.1
  have hint : e.isIntersecting = true := by
    simp at h
    exact h.2
  have hlt : i < s.imgs.length := by
    by_contra hge
    rw [List.getElem?_eq_none (by omega)] at hi
    exact Option.noConfusion hi
  unfold handleEntry
  rw [if_pos hint, ht, hi]
  refine ⟨⟨{ img with src := some (img.dataSrc.getD "undefined"),
                      classList := classRemove "lazy" img.classList },
    by simp [List.getElem?_set, hlt], by simp [hu], hu⟩, ?_, ?_⟩
  · simp [List.mem_filter]
  · simp [srcWritesOf, List.filter_append, hu]

theorem observerCallback_miss (i : Nat) (es : List Entry) (s : LazyPage)
    (h : intersects i es = false) :
    (observerCallback es s).imgs[i]? = s.imgs[i]? ∧
    (i ∈ (observerCallback es s).observed ↔ i ∈ s.observed) ∧
    srcWritesOf i (observerCallback es s) = srcWritesOf i s := by
  induction es generalizing s with
  | nil => exact ⟨rfl, Iff.rfl, rfl⟩
  | cons e l ih =>
    have he : (e.target == i && e.isIntersecting) = false := by
      simp only [intersects, List.any_cons, Bool.or_eq_false_iff] at h
      exact h.1
    have hl : intersects i l = false := by
      simp only [intersects, List.any_cons, Bool.or_eq_false_iff] at h
      exact h.2
    obtain ⟨a1, a2, a3⟩ := handleEntry_other i s e he
    obtain ⟨b1, b2, b3⟩ := ih (handleEntry s e) hl
    exact ⟨b1.trans a1, b2.trans a2, b3.trans a3⟩

theorem observerCallback_writes (i : Nat) (u : String) (es : List Entry) (s : LazyPage)
    (hi : ∃ img, s.imgs[i]? = some img ∧ img.dataSrc = some u) :
    (∃ img1, (observerCallback es s).imgs[i]? = some img1 ∧ img1.dataSrc = some u) ∧
    srcWritesOf i (observerCallback es s) = srcWritesOf i s ++ List.replicate (hits i es) u := by
  induction es generalizing s with
  | nil => exact ⟨hi, by simp [observerCallback, hits]⟩
  | cons e l ih =>
    by_cases he : (e.target == i && e.isIntersecting) = true
    · obtain ⟨img, h1, h2⟩ := hi
      obtain ⟨⟨img1, a1, _, a2⟩, _, a3⟩ := handleEntry_hit i s e img u he h1 h2
      obtain ⟨b1, b2⟩ := ih (handleEntry s e) ⟨img1, a1, a2⟩
      refine ⟨b1, ?_⟩
      show srcWritesOf i (observerCallback l (handleEntry s e)) = _
      rw [b2, a3]
      simp [hits, List.countP_cons, he, List.replicate_succ]
    · have he1 : (e.target == i && e.isIntersecting) = false := by simpa using he
      obtain ⟨a1, _, a3⟩ := handleEntry_other i s e he1
      obtain ⟨b1, b2⟩ := ih (handleEntry s e) (by rw [a1]; exact hi)
      refine ⟨b1, ?_⟩
      show srcWritesOf i (observerCallback l (handleEntry s e)) = _
      rw [b2, a3]
      simp [hits, List.countP_cons, he1]

theorem observerCallback_unobserved (i : Nat) (u : String) (es : List Entry) (s : LazyPage)
    (hi : ∃ img, s.imgs[i]? = some img ∧ img.src = some u ∧ img.dataSrc = some u)
    (ho : i ∉ s.observed) :
    (∃ img1, (observerCallback es s).imgs[i]? = some img1 ∧ img1.src = some u ∧
      img1.dataSrc = some u) ∧
    i ∉ (observerCallback es s).observed := by
  induction es generalizing s with
  | nil => exact ⟨hi, ho⟩
  | cons e l ih =>
    by_cases he : (e.target == i && e.isIntersecting) = true
    · obtain ⟨img, h1, _, h3⟩ := hi
      obtain ⟨a1, a2, _⟩ := handleEntry_hit i s e img u he h1 h3
      exact ih (handleEntry s e) a1 a2
    · have he1 : (e.target == i && e.isIntersecting) = false := by simpa using he
      obtain ⟨a1, a2, _⟩ := handleEntry_other i s e he1
      exact ih (handleEntry s e) (by rw [a1]; exact hi) (fun hmem => ho (a2.mp hmem))

theorem observerCallback_first_hit (i : Nat) (img : Img) (u : String) (es : List Entry)
    (s : LazyPage) (hi : s.imgs[i]? = some img) (hu : img.dataSrc = some u)
    (h : intersects i es = true) :
    (∃ img1, (observerCallback es s).imgs[i]? = some img1 ∧ img1.src = some u ∧
      img1.dataSrc = some u) ∧
    i ∉ (observerCallback es s).observed := by
  induction es generalizing s with
  | nil => simp [intersects] at h
  | cons e l ih =>
    by_cases he : (e.target == i && e.isIntersecting) = true
    · obtain ⟨a1, a2, _⟩ := handleEntry_hit i s e img u he hi hu
      exact observerCallback_unobserved i u l (handleEntry s e) a1 a2
    · have he1 : (e.target == i && e.isIntersecting) = false := by simpa using he
      have hl : intersects i l = true := by
        simp only [intersects, List.any_cons, he1, Bool.false_or] at h
        exact h
      obtain ⟨a1, _, _⟩ := handleEntry_other i s e he1
      exact ih (handleEntry s e) (a1.trans hi) hl

theorem hits_pos (i : Nat) (es : List Entry) (h : intersects i es = true) : 1 ≤ hits i es := by
  simp only [intersects, List.any_eq_true] at h
  obtain ⟨e, he, hp⟩ := h
  exact List.countP_pos_iff.mpr ⟨e, he, hp⟩

theorem notifyAll_unobserved (i : Nat) (batches : List (List Entry)) (s : LazyPage)
    (ho : i ∉ s.observed) (hd : observedBatches s batches = true) :
    (notifyAll s batches).imgs[i]? = s.imgs[i]? ∧
    i ∉ (notifyAll s batches).observed ∧
    srcWritesOf i (notifyAll s batches) = srcWritesOf i s := by
  induction batches generalizing s with
  | nil => exact ⟨rfl, ho, rfl⟩
  | cons b l ih =>
    simp only [observedBatches, Bool.and_eq_true, List.all_eq_true] at hd
    have hb : intersects i b = false := by
      rw [Bool.eq_false_iff]
      intro hint
      simp only [intersects, List.any_eq_true, Bool.and_eq_true, beq_iff_eq] at hint
      obtain ⟨e, he, ht, _⟩ := hint
      have := hd.1 e he
      rw [ht] at this
      exact ho (by simpa using this)
    obtain ⟨a1, a2, a3⟩ := observerCallback_miss i b s hb
    obtain ⟨b1, b2, b3⟩ := ih (observerCallback b s) (fun hmem => ho (a2.mp hmem)) hd.2
    exact ⟨b1.trans a1, b2, b3.trans a3⟩

theorem notifyAll_from (i : Nat) (img : Img) (u : String) (batches : List (List Entry))
    (s : LazyPage) (hi : s.imgs[i]? = some img) (hu : img.dataSrc = some u)
    (ho : i ∈ s.observed) (hw : srcWritesOf i s = [])
    (hd : observedBatches s batches = true) :
    (batches.find? (fun b => intersects i b) = none →
      (notifyAll s batches).imgs[i]? = some img ∧
      i ∈ (notifyAll s batches).observed ∧
      srcWritesOf i (notifyAll s batches) = []) ∧
    (∀ b, batches.find? (fun b => intersects i b) = some b →
      (∃ img1, (notifyAll s batches).imgs[i]? = some img1 ∧ img1.src = some u) ∧
      i ∉ (notifyAll s batches).observed ∧
      srcWritesOf i (notifyAll s batches) = List.replicate (hits i b) u ∧
      1 ≤ hits i b) := by
  induction batches generalizing s with
  | nil =>
    refine ⟨fun _ => ⟨hi, ho, hw⟩, ?_⟩
    intro b hb
    simp at hb
  | cons b l ih =>
    have hd2 : observedBatches (observerCallback b s) l = true := by
      simp only [observedBatches, Bool.and_eq_true] at hd
      exact hd.2
    by_cases hb : intersects i b = true
    · obtain ⟨⟨img1, c1, c2, _⟩, c3⟩ := observerCallback_first_hit i img u b s hi hu hb
      obtain ⟨_, c4⟩ := observerCallback_writes i u b s ⟨img, hi, hu⟩
      obtain ⟨d1, d2, d3⟩ := notifyAll_unobserved i l (observerCallback b s) c3 hd2
      refine ⟨?_, ?_⟩
      · intro hnone
        simp [List.find?_cons, hb] at hnone
      · intro b1 hb1
        simp only [List.find?_cons, hb, Option.some.injEq] at hb1
        subst hb1
        refine ⟨⟨img1, ?_, c2⟩, d2, ?_, hits_pos i b hb⟩
        · exact d1.trans c1
        · show srcWritesOf i (notifyAll (observerCallback b s) l) = _
          rw [d3, c4, hw, List.nil_append]
    · have hb1 : intersects i b = false := by simpa using hb
      obtain ⟨a1, a2, a3⟩ := observerCallback_miss i b s hb1
      obtain ⟨e1, e2⟩ := ih (observerCallback b s) (a1.trans hi) (a2.mpr ho) (a3.trans hw) hd2
      refine ⟨?_, ?_⟩
      · intro hnone
        simp only [List.find?_cons, hb1] at hnone
        exact e1 hnone
      · intro b1 hfound
        simp only [List.find?_cons, hb1] at hfound
        exact e2 b1 hfound

theorem mem_observed_init (imgs : List Img) (i : Nat) (img : Img) (u : String)
    (hi : imgs[i]? = some img) (hu : img.dataSrc = some u) :
    i ∈ (initLazyLoading imgs).observed := by
  have hlt : i < imgs.length := by
    by_contra hge
    rw [List.getElem?_eq_none (by omega)] at hi
    exact Option.noConfusion hi
  simp [initLazyLoading, List.mem_filter, hlt, hi, hu]

/-- C10, as stated, fails. One notification that carries two intersecting entries
for the lazy image of the sample document, every target being observed when
the notification is handed over, assigns the `src` of that image twice: the
callback walks the whole array and the `unobserve` of the first entry does not
stop the second. -/
theorem lazy_image_written_twice :
    observedBatches (initLazyLoading sampleImgs) [[⟨1, true⟩, ⟨1, false⟩, ⟨1, true⟩]] = true ∧
    srcWritesOf 1 (notifyAll (initLazyLoading sampleImgs) [[⟨1, true⟩, ⟨1, false⟩, ⟨1, true⟩]])
      = ["/p/42.jpg", "/p/42.jpg"] := by
  decide

/-- C10, amended: for an image with a `data-src`, after `initLazyLoading` and any
sequence of notifications, each built from the targets observed when it is
handed over: as long as no notification has carried an entry reporting the
image as intersecting, the image is untouched (its `src` has not been
assigned) and still observed; once one has, the `src` is the `data-src` value,
the image is no longer observed, and the `src` has been assigned that value
once for each such entry of that first notification, at least once, and by no
later notification. -/
theorem lazy_image_one_shot (imgs : List Img) (i : Nat) (img : Img) (u : String)
    (hi : imgs[i]? = some img) (hu : img.dataSrc = some u)
    (batches : List (List Entry))
    (hd : observedBatches (initLazyLoading imgs) batches = true) :
    (batches.find? (fun b => intersects i b) = none →
      (notifyAll (initLazyLoading imgs) batches).imgs[i]? = some img ∧
      i ∈ (notifyAll (initLazyLoading imgs) batches).observed ∧
      srcWritesOf i (notifyAll (initLazyLoading imgs) batches) = []) ∧
    (∀ b, batches.find? (fun b => intersects i b) = some b →
      (∃ img1, (notifyAll (initLazyLoading imgs) batches).imgs[i]? = some img1 ∧
        img1.src = some u) ∧
      i ∉ (notifyAll (initLazyLoading imgs) batches).observed ∧
      srcWritesOf i (notifyAll (initLazyLoading imgs) batches) = List.replicate (hits i b) u ∧
      1 ≤ hits i b) :=
  notifyAll_from i img u batches (initLazyLoading imgs) hi hu
    (mem_observed_init imgs i img u hi hu) rfl hd

/-- C10, amended, on the sample document: the lazy image is reported as not
intersecting, then as intersecting together with the other lazy image, and a
last notification reports the other image again. -/
theorem lazy_image_one_shot_witness :
    sampleImgs[1]? = some ⟨none, some "/p/42.jpg", ["lazy"]⟩ ∧
    observedBatches (initLazyLoading sampleImgs)
      [[⟨1, false⟩], [⟨1, true⟩, ⟨2, false⟩], [⟨2, true⟩]] = true ∧
    srcWritesOf 1 (notifyAll (initLazyLoading sampleImgs)
      [[⟨1, false⟩], [⟨1, true⟩, ⟨2, false⟩], [⟨2, true⟩]]) = ["/p/42.jpg"] :=
  ⟨by decide, by decide,
    ((lazy_image_one_shot sampleImgs 1 ⟨none, some "/p/42.jpg", ["lazy"]⟩ "/p/42.jpg"
      (by decide) rfl [[⟨1, false⟩], [⟨1, true⟩, ⟨2, false⟩], [⟨2, true⟩]] (by decide)).2
        [⟨1, true⟩, ⟨2, false⟩] (by decide)).2.2.1⟩

end Shop
